import Mathlib

/-!
Verification of the `uc3m_money` account manager
(`src/main/python/uc3m_money/account_manager.py`).

Python strings are embedded as `List Char`; a raised
`AccountManagementException msg` is embedded as `Except.error msg`; normal
return is `Except.ok`.  Each JSON-array store file is embedded as a
`StoreFile` value: `missing` (the file does not exist, Python
`FileNotFoundError`), `malformed` (the file is not valid JSON, Python
`json.JSONDecodeError`) or `content l` (the decoded list of records).
The operations return the post-state of the store they write together with
the result, so "nothing was written" is the statement that the returned
store equals the one passed in.
-/

/-- Decidable equality for embedded results, used to evaluate the
operations on concrete inputs. -/
instance {ε α : Type} [DecidableEq ε] [DecidableEq α] : DecidableEq (Except ε α) :=
  fun x y =>
    match x, y with
    | Except.ok a, Except.ok b => decidable_of_iff (a = b) (by simp)
    | Except.error a, Except.error b => decidable_of_iff (a = b) (by simp)
    | Except.ok _, Except.error _ => isFalse (by simp)
    | Except.error _, Except.ok _ => isFalse (by simp)

/-- ASCII decimal digit `0`-`9`, the translation of the regex class `[0-9]`
(the embedding reads the regex classes `\d` and `[0-9]` as ASCII digits). -/
def isAsciiDigit (c : Char) : Bool := 48 ≤ c.toNat && c.toNat ≤ 57

/-- ASCII uppercase letter `A`-`Z`, the domain of `alphanum_map` in
`_calculate_check_digits`. -/
def isUpperAZ (c : Char) : Bool := 65 ≤ c.toNat && c.toNat ≤ 90

/-- ASCII letter, the translation of the regex class `[a-zA-Z]`. -/
def isAsciiLetter (c : Char) : Bool :=
  (97 ≤ c.toNat && c.toNat ≤ 122) || (65 ≤ c.toNat && c.toNat ≤ 90)

/-- Numeric value of one ASCII digit character. -/
def digitVal (c : Char) : Nat := c.toNat - 48

/-- Value of a digit string read left to right, as Python `int` computes it
on a string of ASCII digits. -/
def digitsVal (l : List Char) : Nat := l.foldl (fun a c => a * 10 + digitVal c) 0

/-- Python `int(s)` on a string: succeeds on a non-empty all-digit string
(the embedding restricts `int` to the unsigned ASCII-digit strings that the
program actually builds; sign, whitespace and underscore forms never reach
the conversion in `account_manager.py`). -/
def toNatDigits (l : List Char) : Option Nat :=
  if l ≠ [] ∧ l.all isAsciiDigit then some (digitsVal l) else none

/-- Structural IBAN check of `_check_iban_format`: the regex
`^ES[0-9]{22}` under `fullmatch`, i.e. exactly the 24-character strings
`"ES"` followed by 22 ASCII digits. -/
def checkIbanFormat (s : List Char) : Bool :=
  decide (s.length = 24) && decide (s.take 2 = ['E', 'S']) && (s.drop 2).all isAsciiDigit

/-- The letter-to-number map of `_calculate_check_digits`:
`alphanum_map.get(c, c)` maps `A`-`Z` to the two-digit string of
`10 + c - 'A'` and leaves every other character unchanged. -/
def mapAlnum (c : Char) : List Char :=
  if isUpperAZ c then
    let v := 10 + (c.toNat - 65)
    [Char.ofNat (48 + v / 10), Char.ofNat (48 + v % 10)]
  else [c]

/-- `AccountManager._calculate_check_digits`: replace the check-digit pair
with `"00"`, move the first 4 characters to the end, map letters to
numbers, read the digit string as an integer `n` and return `98 - n % 97`.
Returns `none` where Python `int` would raise `ValueError`. -/
def calcCheckDigits (iban : List Char) : Option Nat :=
  let rearranged := iban.take 2 ++ ['0', '0'] ++ iban.drop 4
  let moved := rearranged.drop 4 ++ rearranged.take 4
  let numeric := moved.flatMap mapAlnum
  match toNatDigits numeric with
  | none => none
  | some n => some (98 - n % 97)

/-- `AccountManager.validate_iban`: structural check, then comparison of the
computed check digits with `int(iban[2:4])`.  The `"ValueError"` branch is
unreachable after a successful format check (proved below). -/
def validate_iban (s : List Char) : Except String (List Char) :=
  if checkIbanFormat s then
    match calcCheckDigits s, toNatDigits ((s.drop 2).take 2) with
    | some expected, some actual =>
        if expected ≠ actual then Except.error "Invalid IBAN control digit"
        else Except.ok s
    | _, _ => Except.error "ValueError"
  else Except.error "Invalid IBAN format"


/-- Characters matched by the Python regex class `\s` on `str` patterns:
the ASCII whitespace characters together with the Unicode whitespace
characters. -/
def isPyWs (c : Char) : Bool :=
  (9 ≤ c.toNat && c.toNat ≤ 13) ||
  (28 ≤ c.toNat && c.toNat ≤ 31) ||
  c.toNat = 32 || c.toNat = 133 || c.toNat = 160 || c.toNat = 5760 ||
  (8192 ≤ c.toNat && c.toNat ≤ 8202) ||
  c.toNat = 8232 || c.toNat = 8233 || c.toNat = 8239 || c.toNat = 8287 || c.toNat = 12288

/-- Separator class of the amended concept characterisation: a `\s`
character other than the newline (the lookahead of the concept regex rules
the newline out, see `lookaheadOk`). -/
def wsNoNl (c : Char) : Bool := isPyWs c && decide (c ≠ '\n')

/-- States of the word automaton for `[a-zA-Z]+(\s[a-zA-Z]+)+`:
`start` before any input, `word1` inside the first word, `sep` right after
a separator, `wordN` inside a word that is not the first (the accepting
state), `dead` after a mismatch. -/
inductive CState : Type
  | start : CState
  | word1 : CState
  | sep : CState
  | wordN : CState
  | dead : CState
deriving DecidableEq

/-- One step of the word automaton over separator class `ws`. -/
def cstep (ws : Char → Bool) (st : CState) (c : Char) : CState :=
  match st with
  | CState.start => if isAsciiLetter c then CState.word1 else CState.dead
  | CState.word1 =>
      if isAsciiLetter c then CState.word1
      else if ws c then CState.sep else CState.dead
  | CState.sep => if isAsciiLetter c then CState.wordN else CState.dead
  | CState.wordN =>
      if isAsciiLetter c then CState.wordN
      else if ws c then CState.sep else CState.dead
  | CState.dead => CState.dead

/-- Run of the word automaton over a string. -/
def crun (ws : Char → Bool) (st : CState) (s : List Char) : CState :=
  s.foldl (cstep ws) st

/-- Full match of `[a-zA-Z]+(sep [a-zA-Z]+)+` with separator class `ws`:
at least two non-empty ASCII-letter words, adjacent words separated by
exactly one `ws` character. -/
def mainMatch (ws : Char → Bool) (s : List Char) : Bool :=
  decide (crun ws CState.start s = CState.wordN)

/-- The lookahead `(?=^.{10,30}$)` of the concept regex: from the start of
the string, between 10 and 30 non-newline characters followed by `$`
(`$` matches at the end of the string or just before a newline that ends
the string). -/
def lookaheadOk (s : List Char) : Bool :=
  (decide (10 ≤ s.length) && decide (s.length ≤ 30) && s.all (fun c => decide (c ≠ '\n'))) ||
  (match s.getLast? with
   | some '\n' =>
       decide (10 ≤ s.length - 1) && decide (s.length - 1 ≤ 30) &&
       s.dropLast.all (fun c => decide (c ≠ '\n'))
   | _ => false)

/-- `AccountManager.validate_concept`: `fullmatch` of
`^(?=^.{10,30}$)([a-zA-Z]+(\s[a-zA-Z]+)+)$`.  The Python method returns
`None` on success and raises on failure. -/
def validate_concept (s : List Char) : Except String Unit :=
  if lookaheadOk s && mainMatch isPyWs s then Except.ok ()
  else Except.error "Invalid concept format"

/-- Concept predicate written from the claim: a full match of
`^[a-zA-Z]+( [a-zA-Z]+)+$` (words separated by single space characters)
with total length between 10 and 30. -/
def conceptSpecRegex (s : List Char) : Bool :=
  decide (10 ≤ s.length) && decide (s.length ≤ 30) && mainMatch (fun c => decide (c = ' ')) s


/-- Calendar date, used to pass the current UTC date
(`datetime.now(timezone.utc).date()`) into the embedding as a parameter. -/
structure PyDate : Type where
  year : Nat
  month : Nat
  day : Nat
deriving DecidableEq

/-- Strict order on dates, the Python `<` on `datetime.date` values. -/
def dateBefore (a b : PyDate) : Bool :=
  decide (a.year < b.year) ||
  (decide (a.year = b.year) &&
    (decide (a.month < b.month) ||
     (decide (a.month = b.month) && decide (a.day < b.day))))

/-- Gregorian leap-year rule used by Python `datetime`. -/
def leapYear (y : Nat) : Bool :=
  (y % 4 = 0 && y % 100 ≠ 0) || y % 400 = 0

/-- Days in a month of the proleptic Gregorian calendar. -/
def daysInMonth (m y : Nat) : Nat :=
  if m = 2 then (if leapYear y then 29 else 28)
  else if m = 4 ∨ m = 6 ∨ m = 9 ∨ m = 11 then 30
  else 31

/-- The date regex of `validate_transfer_date`:
`^(([0-2]\d|3[0-1])\/(0\d|1[0-2])\/\d\d\d\d)$` under `fullmatch`
(day `00`-`31`, month `00`-`12`, any 4-digit year). -/
def dateRegexOk : List Char → Bool
  | [d1, d2, c1, m1, m2, c2, y1, y2, y3, y4] =>
      decide (c1 = '/') && decide (c2 = '/') &&
      ((decide (48 ≤ d1.toNat) && decide (d1.toNat ≤ 50) && isAsciiDigit d2) ||
       (decide (d1 = '3') && (decide (d2 = '0') || decide (d2 = '1')))) &&
      ((decide (m1 = '0') && isAsciiDigit m2) ||
       (decide (m1 = '1') && (decide (m2 = '0') || decide (m2 = '1') || decide (m2 = '2')))) &&
      isAsciiDigit y1 && isAsciiDigit y2 && isAsciiDigit y3 && isAsciiDigit y4
  | _ => false

/-- Day field of a `dd/mm/yyyy` string. -/
def dateDay (s : List Char) : Nat := digitVal (s.getD 0 '0') * 10 + digitVal (s.getD 1 '0')

/-- Month field of a `dd/mm/yyyy` string. -/
def dateMonth (s : List Char) : Nat := digitVal (s.getD 3 '0') * 10 + digitVal (s.getD 4 '0')

/-- Year field of a `dd/mm/yyyy` string. -/
def dateYear (s : List Char) : Nat :=
  digitVal (s.getD 6 '0') * 1000 + digitVal (s.getD 7 '0') * 100 +
  digitVal (s.getD 8 '0') * 10 + digitVal (s.getD 9 '0')

/-- Success condition of `datetime.strptime(t_d, "%d/%m/%Y")` on a string
that already passed the date regex: the fields must form a real proleptic
Gregorian calendar date with year at least `datetime.MINYEAR = 1`. -/
def dateParseOk (s : List Char) : Bool :=
  decide (1 ≤ dateMonth s) && decide (dateMonth s ≤ 12) &&
  decide (1 ≤ dateDay s) && decide (dateDay s ≤ daysInMonth (dateMonth s) (dateYear s)) &&
  decide (1 ≤ dateYear s)

/-- `AccountManager.validate_transfer_date`, with the current UTC date as
the `today` parameter: regex check, `strptime` parse, rejection of past
dates, then the `[2025, 2050]` year window. -/
def validate_transfer_date (today : PyDate) (s : List Char) : Except String (List Char) :=
  if dateRegexOk s = false then Except.error "Invalid date format"
  else if dateParseOk s = false then Except.error "Invalid date format"
  else if dateBefore ⟨dateYear s, dateMonth s, dateDay s⟩ today then
    Except.error "Transfer date must be today or later."
  else if dateYear s < 2025 ∨ dateYear s > 2050 then Except.error "Invalid date format"
  else Except.ok s


/-- The transfer-type check of `transfer_request`: `fullmatch` of
`(ORDINARY|INMEDIATE|URGENT)`, i.e. exactly those three strings
(the source spells `INMEDIATE`). -/
def transferTypeOk (t : List Char) : Bool :=
  decide (t = "ORDINARY".data) || decide (t = "INMEDIATE".data) || decide (t = "URGENT".data)

/-- The fractional-digit guard of `transfer_request` on the amount,
embedded over exact rationals: at most two digits after the decimal
point.  The source routes the amount through the binary64 pipeline
`str(float(amount))`; the embedding uses the exact decimal value, which
agrees with the source on every amount that is a decimal numeral with at
most two fractional digits (see the notes on the amount claim). -/
def fracDigitsLE2 (a : ℚ) : Bool := decide ((mkRat (a.num * 100) a.den).den = 1)

/-- Rational addition through `mkRat`, definitionally transparent so that
concrete runs of the operations evaluate; equal to `+` on `ℚ`
(`ratAdd_eq_add` below). -/
def ratAdd (a b : ℚ) : ℚ := mkRat (a.num * b.den + b.num * a.den) (a.den * b.den)

theorem ratAdd_eq_add (a b : ℚ) : ratAdd a b = a + b := (Rat.add_def' a b).symm

/-- The fractional-digit test agrees with the denominator of `a * 100`. -/
theorem fracDigitsLE2_eq (a : ℚ) : fracDigitsLE2 a = decide ((a * 100).den = 1) := by
  have h : a * 100 = mkRat (a.num * 100) a.den := by
    rw [Rat.mul_def]
    norm_num [Rat.normalize_eq_mkRat]
  rw [fracDigitsLE2, h]

/-- State of one JSON-array store file: absent, undecodable, or a decoded
list of records. -/
inductive StoreFile (α : Type) : Type
  | missing : StoreFile α
  | malformed : StoreFile α
  | content : List α → StoreFile α
deriving DecidableEq

/-- Load pattern shared by the transfers, deposits and balances stores
(policy A): `FileNotFoundError` yields the empty list, a JSON decode error
raises. -/
def loadOrEmpty {α : Type} (f : StoreFile α) : Except String (List α) :=
  match f with
  | StoreFile.missing => Except.ok []
  | StoreFile.malformed => Except.error "JSON Decode Error - Wrong JSON Format"
  | StoreFile.content l => Except.ok l

/-- Decimal digit string of a natural number, used by the modelled
identifier derivations. -/
def natChars (n : Nat) : List Char := Nat.toDigits 10 n

/-- Digit string of an integer with optional sign. -/
def intChars (i : Int) : List Char :=
  if i < 0 then '-' :: natChars i.natAbs else natChars i.natAbs

/-- Digit string of a rational, numerator and denominator. -/
def ratChars (a : ℚ) : List Char := intChars a.num ++ ('/' :: natChars a.den)

/-- Modelled from the spec: the persisted transfer record.  The class
`TransferRequest` (`uc3m_money/transfer_request.py`) is not under `src/`;
the spec gives the stored schema `{from_iban, to_iban, transfer_concept,
transfer_date, transfer_amount, transfer_type, transfer_code}` with the
constructor echoing the already-validated fields and `to_json` emitting
them under those fixed names. -/
structure TransferRecord : Type where
  from_iban : List Char
  to_iban : List Char
  transfer_concept : List Char
  transfer_type : List Char
  transfer_date : List Char
  transfer_amount : ℚ
  transfer_code : List Char
deriving DecidableEq

/-- Modelled from the spec: `transfer_code` is a deterministic identifier
derived from the full field set of the transfer. -/
def transferCode (f t c ty d : List Char) (a : ℚ) : List Char :=
  f ++ t ++ c ++ ty ++ d ++ ratChars a

/-- The `TransferRequest` value built by `transfer_request` from validated
fields. -/
def mkRequest (f t c ty d : List Char) (a : ℚ) : TransferRecord :=
  ⟨f, t, c, ty, d, a, transferCode f t c ty d a⟩

/-- The duplicate test of `transfer_request`: the six business fields of a
stored record all equal those of the new request. -/
def matchesRequest (r q : TransferRecord) : Bool :=
  decide (r.from_iban = q.from_iban) && decide (r.to_iban = q.to_iban) &&
  decide (r.transfer_date = q.transfer_date) && decide (r.transfer_amount = q.transfer_amount) &&
  decide (r.transfer_concept = q.transfer_concept) && decide (r.transfer_type = q.transfer_type)

/-- `AccountManager.transfer_request`: validate the six fields in source
order, build the request, load the transfers store (missing file is an
empty list), fail on a duplicate, otherwise append and persist.  The pair
returned is the post-state of the transfers store and the result. -/
def transfer_request (today : PyDate) (store : StoreFile TransferRecord)
    (from_iban to_iban concept transfer_type date : List Char) (amount : ℚ) :
    StoreFile TransferRecord × Except String (List Char) :=
  match validate_iban from_iban with
  | Except.error e => (store, Except.error e)
  | Except.ok _ =>
  match validate_iban to_iban with
  | Except.error e => (store, Except.error e)
  | Except.ok _ =>
  match validate_concept concept with
  | Except.error e => (store, Except.error e)
  | Except.ok _ =>
  if transferTypeOk transfer_type = false then (store, Except.error "Invalid transfer type")
  else
  match validate_transfer_date today date with
  | Except.error e => (store, Except.error e)
  | Except.ok _ =>
  if fracDigitsLE2 amount = false then (store, Except.error "Invalid transfer amount")
  else if amount < 10 ∨ amount > 10000 then (store, Except.error "Invalid transfer amount")
  else
    let req := mkRequest from_iban to_iban concept transfer_type date amount
    match loadOrEmpty store with
    | Except.error e => (store, Except.error e)
    | Except.ok t_l =>
      if t_l.any (fun r => matchesRequest r req) then
        (store, Except.error "Duplicated transfer in transfer list")
      else (StoreFile.content (t_l ++ [req]), Except.ok req.transfer_code)

/-- The deposit input file of `deposit_into_account` after `json.load`:
absent, undecodable, or an object whose `IBAN` and `AMOUNT` keys may be
missing. -/
inductive DepositInputFile : Type
  | missing : DepositInputFile
  | malformed : DepositInputFile
  | obj : Option (List Char) → Option (List Char) → DepositInputFile

/-- Modelled from the spec: the persisted deposit record.  The class
`AccountDeposit` (`uc3m_money/account_deposit.py`) is not under `src/`;
the spec gives the stored schema `{to_iban, deposit_amount,
deposit_signature, timestamp}`. -/
structure DepositRecord : Type where
  to_iban : List Char
  deposit_amount : ℚ
  deposit_signature : List Char
  deposit_date : ℚ
deriving DecidableEq

/-- Modelled from the spec: `deposit_signature` is a deterministic
identifier derived from the deposit content. -/
def depositSignature (ib : List Char) (a : ℚ) : List Char := ib ++ ratChars a

/-- The deposit amount regex of `deposit_into_account`:
`^EUR [0-9]{4}\.[0-9]{2}` under `fullmatch`, i.e. exactly the 11-character
strings `EUR dddd.dd`. -/
def depositAmountRegexOk : List Char → Bool
  | [e, u, r, sp, a1, a2, a3, a4, dot, b1, b2] =>
      decide (e = 'E') && decide (u = 'U') && decide (r = 'R') && decide (sp = ' ') &&
      isAsciiDigit a1 && isAsciiDigit a2 && isAsciiDigit a3 && isAsciiDigit a4 &&
      decide (dot = '.') && isAsciiDigit b1 && isAsciiDigit b2
  | _ => false

/-- Numeric value of a matched deposit amount string,
`float(deposit_amount[4:])`: the exact decimal value of `dddd.dd` (the
zero test and all `dddd.dd` comparisons made by the source are exact in
binary64 at this granularity). -/
def depositValue (am : List Char) : ℚ :=
  mkRat (digitsVal ((am.drop 4).take 4) * 100 + digitsVal ((am.drop 9).take 2)) 100

/-- `AccountManager.deposit_into_account`: read the input object, fetch
the `IBAN` and `AMOUNT` keys, validate the IBAN, match the amount pattern,
reject a zero amount, then append to the deposits store (missing file is
an empty list) and return the deposit signature.  The pair returned is the
post-state of the deposits store and the result. -/
def deposit_into_account (now : ℚ) (inp : DepositInputFile) (store : StoreFile DepositRecord) :
    StoreFile DepositRecord × Except String (List Char) :=
  match inp with
  | DepositInputFile.missing => (store, Except.error "Error: file input not found")
  | DepositInputFile.malformed => (store, Except.error "JSON Decode Error - Wrong JSON Format")
  | DepositInputFile.obj iban? amount? =>
    match iban?, amount? with
    | none, _ => (store, Except.error "Error - Invalid Key in JSON")
    | some _, none => (store, Except.error "Error - Invalid Key in JSON")
    | some ib, some am =>
      match validate_iban ib with
      | Except.error e => (store, Except.error e)
      | Except.ok ib' =>
        if depositAmountRegexOk am = false then
          (store, Except.error "Error - Invalid deposit amount")
        else if depositValue am = 0 then
          (store, Except.error "Error - Deposit must be greater than 0")
        else
          let rec_ : DepositRecord := ⟨ib', depositValue am, depositSignature ib' (depositValue am), now⟩
          match loadOrEmpty store with
          | Except.error e => (store, Except.error e)
          | Except.ok d_l =>
              (StoreFile.content (d_l ++ [rec_]), Except.ok rec_.deposit_signature)

/-- One element of the externally maintained transactions collection:
`{IBAN: string, amount: decimal}`.  The source converts the `amount` field
with `float(...)`; the embedding carries the decoded numeric value. -/
structure TransactionRecord : Type where
  IBAN : List Char
  amount : ℚ
deriving DecidableEq

/-- One element of the balances collection:
`{IBAN, time (UTC timestamp), BALANCE}`. -/
structure BalanceRecord : Type where
  IBAN : List Char
  time : ℚ
  BALANCE : ℚ
deriving DecidableEq

/-- `AccountManager.read_transactions_file`: a missing transactions file
raises (policy B), a decode error raises, otherwise the decoded list is
returned. -/
def read_transactions_file {α : Type} (f : StoreFile α) : Except String (List α) :=
  match f with
  | StoreFile.missing => Except.error "Wrong file  or file path"
  | StoreFile.malformed => Except.error "JSON Decode Error - Wrong JSON Format"
  | StoreFile.content l => Except.ok l

/-- Loop body of the balance scan in `calculate_balance`: on an `IBAN`
match, set the found flag and add the transaction amount.  The source
accumulates `bal_s += float(transaction["amount"])` in binary64 while the
embedding adds exactly; the two accumulations coincide whenever every
matching amount is an integer and the absolute values of the matching
amounts sum below `2^53`, because then every amount and every partial
sum is an integer of magnitude below `2^53`, hence exactly representable
in binary64, and IEEE-754 round-to-nearest returns a representable exact
sum unchanged.  The balance-value theorem below asserts the accumulated
value only under that hypothesis; every other theorem about
`calculate_balance` uses only the found flag and the store plumbing,
which do not depend on the accumulated value. -/
def balStep (ib : List Char) (p : Bool × ℚ) (t : TransactionRecord) : Bool × ℚ :=
  if t.IBAN = ib then (true, ratAdd p.2 t.amount) else p

/-- Sum of the amounts of the transactions whose `IBAN` equals `ib`. -/
def balanceSum (ib : List Char) (l : List TransactionRecord) : ℚ :=
  ((l.filter (fun t => decide (t.IBAN = ib))).map TransactionRecord.amount).sum

/-- Domain on which the exact accumulation of `balStep` provably agrees
with the source's binary64 accumulation: every transaction matching `ib`
carries an integer amount, and the absolute values of the matching
numerators sum below `2^53`. -/
def exactBalanceDomain (ib : List Char) (l : List TransactionRecord) : Prop :=
  (∀ t ∈ l, t.IBAN = ib → t.amount.den = 1) ∧
  ((l.filter (fun t => decide (t.IBAN = ib))).map
      (fun t => t.amount.num.natAbs)).sum < 2 ^ 53

instance (ib : List Char) (l : List TransactionRecord) :
    Decidable (exactBalanceDomain ib l) := by
  unfold exactBalanceDomain
  infer_instance

/-- `AccountManager.calculate_balance`: validate the IBAN, read the
transactions file (missing is fatal), scan for matching transactions,
fail when none matches, otherwise append a balance snapshot (missing
balances file is an empty list) and return `true`.  The pair returned is
the post-state of the balances store and the result. -/
def calculate_balance (now : ℚ) (transactions : StoreFile TransactionRecord)
    (balances : StoreFile BalanceRecord) (iban : List Char) :
    StoreFile BalanceRecord × Except String Bool :=
  match validate_iban iban with
  | Except.error e => (balances, Except.error e)
  | Except.ok ib =>
    match read_transactions_file transactions with
    | Except.error e => (balances, Except.error e)
    | Except.ok t_l =>
      let r := t_l.foldl (balStep ib) (false, (0 : ℚ))
      if r.1 = false then (balances, Except.error "IBAN not found")
      else
        let snap : BalanceRecord := ⟨ib, now, r.2⟩
        match loadOrEmpty balances with
        | Except.error e => (balances, Except.error e)
        | Except.ok b_l => (StoreFile.content (b_l ++ [snap]), Except.ok true)

theorem mapAlnum_digit {c : Char} (h : isAsciiDigit c = true) : mapAlnum c = [c] := by
  simp only [isAsciiDigit, Bool.and_eq_true, decide_eq_true_eq] at h
  simp only [mapAlnum, isUpperAZ, Bool.and_eq_true, decide_eq_true_eq]
  rw [if_neg]
  intro hc
  omega

theorem flatMap_mapAlnum_digits {l : List Char} (h : l.all isAsciiDigit = true) :
    l.flatMap mapAlnum = l := by
  induction l with
  | nil => rfl
  | cons c cs ih =>
      simp only [List.all_cons, Bool.and_eq_true] at h
      simp [List.flatMap_cons, mapAlnum_digit h.1, ih h.2]

theorem checkIbanFormat_spec {s : List Char} (h : checkIbanFormat s = true) :
    s.length = 24 ∧ s.take 2 = ['E', 'S'] ∧ (s.drop 2).all isAsciiDigit = true := by
  simpa only [checkIbanFormat, Bool.and_eq_true, decide_eq_true_eq, and_assoc] using h

theorem calcCheckDigits_isSome {s : List Char} (h : checkIbanFormat s = true) :
    calcCheckDigits s = some (98 - digitsVal (s.drop 4 ++ "142800".data) % 97) := by
  obtain ⟨hlen, htake, hdig⟩ := checkIbanFormat_spec h
  have hdrop4 : (s.drop 4).all isAsciiDigit = true := by
    rw [show (4 : Nat) = 2 + 2 from rfl, ← List.drop_drop]
    exact List.all_eq_true.2 fun c hc =>
      List.all_eq_true.1 hdig c (List.drop_subset 2 _ hc)
  have hrearr : s.take 2 ++ ['0', '0'] ++ s.drop 4
      = 'E' :: 'S' :: '0' :: '0' :: s.drop 4 := by rw [htake]; rfl
  have hmoved : ('E' :: 'S' :: '0' :: '0' :: s.drop 4).drop 4
        ++ ('E' :: 'S' :: '0' :: '0' :: s.drop 4).take 4
      = s.drop 4 ++ ['E', 'S', '0', '0'] := by
    simp [List.drop_succ_cons, List.take_succ_cons]
  have hnum : (s.drop 4 ++ ['E', 'S', '0', '0']).flatMap mapAlnum
      = s.drop 4 ++ "142800".data := by
    rw [List.flatMap_append, flatMap_mapAlnum_digits hdrop4]
    rfl
  have hall : (s.drop 4 ++ "142800".data).all isAsciiDigit = true := by
    rw [List.all_append, hdrop4]
    rfl
  have hne : s.drop 4 ++ "142800".data ≠ [] := by
    intro hcontra
    have := congrArg List.length hcontra
    simp at this
  simp only [calcCheckDigits, hrearr, hmoved, hnum]
  rw [toNatDigits, if_pos ⟨hne, hall⟩]

theorem pair_toNatDigits_aux {s : List Char} (h : checkIbanFormat s = true) :
    toNatDigits ((s.drop 2).take 2) = some (digitsVal ((s.drop 2).take 2)) := by
  obtain ⟨hlen, _, hdig⟩ := checkIbanFormat_spec h
  have hall : ((s.drop 2).take 2).all isAsciiDigit = true :=
    List.all_eq_true.2 fun c hc =>
      List.all_eq_true.1 hdig c (List.take_subset 2 _ hc)
  have hlen2 : (s.drop 2).length = 22 := by simp [hlen]
  have hne : (s.drop 2).take 2 ≠ [] := by
    intro hcontra
    have := congrArg List.length hcontra
    simp [hlen2] at this
  rw [toNatDigits, if_pos ⟨hne, hall⟩]

theorem validate_iban_eq_ok_iff {s : List Char} :
    validate_iban s = Except.ok s ↔
      (checkIbanFormat s = true ∧ calcCheckDigits s = toNatDigits ((s.drop 2).take 2)) := by
  unfold validate_iban
  cases hf : checkIbanFormat s with
  | false => simp
  | true =>
      rw [calcCheckDigits_isSome hf, pair_toNatDigits_aux hf]
      by_cases h : 98 - digitsVal (s.drop 4 ++ "142800".data) % 97
          = digitsVal ((s.drop 2).take 2)
      · simp [h]
      · simp [h]

/-- C1.  `validate_iban` succeeds and returns the input unchanged exactly
when the string is `ES` followed by 22 digits and its check-digit pair
(characters 3-4, read as an integer) equals the mod-97 value `98 - N % 97`
computed by `_calculate_check_digits`; a structural deviation fails with
the invalid-format error and a checksum mismatch with the control-digit
error.  `ES9121000418450200051332` validates successfully, and every
single-digit mutation of its check-digit pair fails the control-digit
check. -/
theorem iban_validation_correct :
    (∀ s : List Char, validate_iban s = Except.ok s ↔
        (checkIbanFormat s = true ∧ calcCheckDigits s = toNatDigits ((s.drop 2).take 2)))
    ∧ (∀ s : List Char, checkIbanFormat s = false →
        validate_iban s = Except.error "Invalid IBAN format")
    ∧ (∀ s : List Char, checkIbanFormat s = true →
        calcCheckDigits s ≠ toNatDigits ((s.drop 2).take 2) →
        validate_iban s = Except.error "Invalid IBAN control digit")
    ∧ validate_iban "ES9121000418450200051332".data
        = Except.ok "ES9121000418450200051332".data
    ∧ (∀ i : Fin 10, (i : Nat) ≠ 9 →
        validate_iban ("ES".data ++ [Char.ofNat (48 + i), '1'] ++ "21000418450200051332".data)
          = Except.error "Invalid IBAN control digit")
    ∧ (∀ i : Fin 10, (i : Nat) ≠ 1 →
        validate_iban ("ES".data ++ ['9', Char.ofNat (48 + i)] ++ "21000418450200051332".data)
          = Except.error "Invalid IBAN control digit") := by
  refine ⟨fun s => validate_iban_eq_ok_iff, ?_, ?_, by decide, by decide, by decide⟩
  · intro s hf
    unfold validate_iban
    simp [hf]
  · intro s hf hne
    unfold validate_iban
    rw [calcCheckDigits_isSome hf, pair_toNatDigits_aux hf]
    rw [calcCheckDigits_isSome hf, pair_toNatDigits_aux hf] at hne
    simp only [ne_eq, Option.some.injEq] at hne
    simp [hf, hne]

theorem iban_validation_correct_witness :
    validate_iban "ES0021000418450200051332".data = Except.error "Invalid IBAN control digit" :=
  iban_validation_correct.2.2.1 _ (by decide) (by decide)

/-- C10.  Whenever `_calculate_check_digits` computes a value it lies in
`[2, 98]` (the mod-97 residue lies in `[0, 96]`), so a structurally valid
IBAN whose check-digit pair is `00` or `01` can never validate: it always
fails the control-digit check. -/
theorem check_digits_always_in_range :
    (∀ (s : List Char) (v : Nat), calcCheckDigits s = some v → 2 ≤ v ∧ v ≤ 98)
    ∧ (∀ s : List Char, checkIbanFormat s = true →
        ((s.drop 2).take 2 = ['0', '0'] ∨ (s.drop 2).take 2 = ['0', '1']) →
        validate_iban s = Except.error "Invalid IBAN control digit") := by
  have hrange : ∀ (s : List Char) (v : Nat), calcCheckDigits s = some v → 2 ≤ v ∧ v ≤ 98 := by
    intro s v h
    simp only [calcCheckDigits] at h
    split at h
    · exact absurd h (by simp)
    · rename_i n hn
      simp only [Option.some.injEq] at h
      have hmod : n % 97 ≤ 96 := Nat.le_of_lt_succ (Nat.mod_lt n (by norm_num))
      omega
  refine ⟨hrange, ?_⟩
  intro s hf hp
  have hc := calcCheckDigits_isSome hf
  have hv := hrange s _ hc
  have hpair : digitsVal ((s.drop 2).take 2) ≤ 1 := by
    rcases hp with hp | hp <;> rw [hp] <;> simp [digitsVal, digitVal]
  unfold validate_iban
  rw [hc, pair_toNatDigits_aux hf]
  have hne : 98 - digitsVal (s.drop 4 ++ "142800".data) % 97 ≠ digitsVal ((s.drop 2).take 2) := by
    omega
  simp [hf, hne]

theorem check_digits_always_in_range_witness :
    (2 ≤ 91 ∧ 91 ≤ 98)
    ∧ validate_iban "ES0121000418450200051332".data = Except.error "Invalid IBAN control digit" :=
  ⟨check_digits_always_in_range.1 "ES9121000418450200051332".data 91 (by decide),
   check_digits_always_in_range.2 _ (by decide) (by decide)⟩

theorem crun_dead (ws : Char → Bool) (s : List Char) : crun ws CState.dead s = CState.dead := by
  induction s with
  | nil => rfl
  | cons c cs ih => simpa [crun, cstep] using ih

theorem crun_append (ws : Char → Bool) (st : CState) (a b : List Char) :
    crun ws st (a ++ b) = crun ws (crun ws st a) b := by
  simp [crun, List.foldl_append]

theorem crun_congr {ws ws' : Char → Bool} {s : List Char}
    (h : ∀ c ∈ s, ws c = ws' c) (st : CState) : crun ws st s = crun ws' st s := by
  induction s generalizing st with
  | nil => rfl
  | cons c cs ih =>
      have hc : ws c = ws' c := h c (List.mem_cons_self c cs)
      have hrest : ∀ c' ∈ cs, ws c' = ws' c' := fun c' hc' => h c' (List.mem_cons_of_mem c hc')
      simp only [crun, List.foldl_cons]
      rw [show cstep ws st c = cstep ws' st c by cases st <;> simp [cstep, hc]]
      exact ih hrest (cstep ws' st c)

theorem cstep_ne_dead {ws : Char → Bool} {st : CState} {c : Char}
    (h : cstep ws st c ≠ CState.dead) : isAsciiLetter c = true ∨ ws c = true := by
  cases st <;> simp only [cstep] at h <;> by_cases hl : isAsciiLetter c = true <;>
    simp_all <;> by_cases hw : ws c = true <;> simp_all

theorem crun_ne_dead_chars {ws : Char → Bool} {s : List Char} {st : CState}
    (h : crun ws st s ≠ CState.dead) : ∀ c ∈ s, isAsciiLetter c = true ∨ ws c = true := by
  induction s generalizing st with
  | nil => intro c hc; exact absurd hc (List.not_mem_nil c)
  | cons c cs ih =>
      intro d hd
      have hstep : cstep ws st c ≠ CState.dead := by
        intro hcontra
        apply h
        simp only [crun, List.foldl_cons, hcontra]
        exact crun_dead ws cs
      rcases List.mem_cons.1 hd with hd | hd
      · subst hd; exact cstep_ne_dead hstep
      · exact ih (by simpa [crun] using h) d hd

theorem cstep_eq_wordN {ws : Char → Bool} {st : CState} {c : Char}
    (h : cstep ws st c = CState.wordN) : isAsciiLetter c = true := by
  cases st <;> simp only [cstep] at h <;> by_cases hl : isAsciiLetter c = true <;>
    simp_all <;> by_cases hw : ws c = true <;> simp_all

theorem mainMatch_last_letter {ws : Char → Bool} {s : List Char} {c : Char}
    (h : mainMatch ws s = true) (hlast : s.getLast? = some c) : isAsciiLetter c = true := by
  have hne : s ≠ [] := by intro hcontra; subst hcontra; simp at hlast
  have hdecomp : s = s.dropLast ++ [s.getLast hne] := (List.dropLast_append_getLast hne).symm
  have hc : s.getLast hne = c := by
    have := List.getLast?_eq_getLast s hne
    rw [hlast] at this
    exact (Option.some.injEq _ _ ▸ this.symm)
  simp only [mainMatch, decide_eq_true_eq] at h
  rw [hdecomp, crun_append] at h
  rw [← hc]
  exact cstep_eq_wordN (by simpa [crun] using h)

theorem letter_ne_newline {c : Char} (h : isAsciiLetter c = true) : c ≠ '\n' := by
  intro hcontra
  subst hcontra
  exact absurd h (by decide)

theorem wsNoNl_ne_newline {c : Char} (h : wsNoNl c = true) : c ≠ '\n' := by
  simp only [wsNoNl, Bool.and_eq_true, decide_eq_true_eq] at h
  exact h.2

theorem isPyWs_eq_wsNoNl {c : Char} (h : c ≠ '\n') : isPyWs c = wsNoNl c := by
  simp [wsNoNl, h]

theorem validate_concept_ok_iff {s : List Char} :
    validate_concept s = Except.ok () ↔
      (10 ≤ s.length ∧ s.length ≤ 30 ∧ mainMatch wsNoNl s = true) := by
  unfold validate_concept
  constructor
  · intro h
    have hcond : (lookaheadOk s && mainMatch isPyWs s) = true := by
      by_contra hc
      rw [if_neg (by simpa using hc)] at h
      exact absurd h (by simp)
    have h1 : lookaheadOk s = true := (Bool.and_eq_true _ _ ▸ hcond).1
    have h2 : mainMatch isPyWs s = true := (Bool.and_eq_true _ _ ▸ hcond).2
    have hfirst : (10 ≤ s.length ∧ s.length ≤ 30) ∧ (∀ c ∈ s, c ≠ '\n') := by
      simp only [lookaheadOk, Bool.or_eq_true, Bool.and_eq_true, decide_eq_true_eq] at h1
      rcases h1 with ⟨⟨ha, hb⟩, hall⟩ | hmatch
      · exact ⟨⟨ha, hb⟩, fun c hc => by simpa using List.all_eq_true.1 hall c hc⟩
      · exfalso
        split at hmatch
        · rename_i heq
          have := mainMatch_last_letter h2 heq
          exact absurd this (by decide)
        · exact absurd hmatch (by simp)
    have hnl : ∀ c ∈ s, c ≠ '\n' := hfirst.2
    have hcongr : ∀ c ∈ s, isPyWs c = wsNoNl c := fun c hc => isPyWs_eq_wsNoNl (hnl c hc)
    have hmain : mainMatch wsNoNl s = true := by
      simp only [mainMatch, decide_eq_true_eq] at h2 ⊢
      rw [← crun_congr hcongr]
      exact h2
    exact ⟨hfirst.1.1, hfirst.1.2, hmain⟩
  · rintro ⟨hlo, hhi, hmain⟩
    have hne : crun wsNoNl CState.start s ≠ CState.dead := by
      simp only [mainMatch, decide_eq_true_eq] at hmain
      rw [hmain]
      intro hcontra
      exact absurd hcontra (by simp)
    have hnl : ∀ c ∈ s, c ≠ '\n' := by
      intro c hc
      rcases crun_ne_dead_chars hne c hc with hlet | hws
      · exact letter_ne_newline hlet
      · exact wsNoNl_ne_newline hws
    have hcongr : ∀ c ∈ s, isPyWs c = wsNoNl c := fun c hc => isPyWs_eq_wsNoNl (hnl c hc)
    have hmain' : mainMatch isPyWs s = true := by
      simp only [mainMatch, decide_eq_true_eq] at hmain ⊢
      rw [crun_congr hcongr]
      exact hmain
    have hlook : lookaheadOk s = true := by
      simp only [lookaheadOk, Bool.or_eq_true, Bool.and_eq_true, decide_eq_true_eq]
      left
      exact ⟨⟨hlo, hhi⟩, List.all_eq_true.2 fun c hc => by simpa using hnl c hc⟩
    rw [if_pos (by simp [hlook, hmain'])]

/-- C6 counterexample.  The concept `hello<TAB>world` (length 11, two
letter words separated by a single tab) is accepted by
`validate_concept` although it does not match the claimed space-only
pattern `^[a-zA-Z]+( [a-zA-Z]+)+$`: the source regex separator is `\s`,
not the space character. -/
theorem concept_spec_counterexample :
    validate_concept ('h' :: 'e' :: 'l' :: 'l' :: 'o' :: '\t' :: 'w' :: 'o' :: 'r' :: 'l' :: 'd' :: [])
        = Except.ok ()
    ∧ conceptSpecRegex ('h' :: 'e' :: 'l' :: 'l' :: 'o' :: '\t' :: 'w' :: 'o' :: 'r' :: 'l' :: 'd' :: [])
        = false := by
  constructor
  · decide
  · decide

/-- C6 amended.  A transfer concept is accepted exactly when it consists
of two or more ASCII-letter words separated by single whitespace
characters other than newline (the Python class `\s` minus `\n`; the
lookahead `^.{10,30}$` excludes the newline) and its total length is
between 10 and 30; every other string fails with the invalid-concept
error. -/
theorem concept_validation_amended :
    (∀ s : List Char, validate_concept s = Except.ok () ↔
        (10 ≤ s.length ∧ s.length ≤ 30 ∧ mainMatch wsNoNl s = true))
    ∧ (∀ s : List Char, validate_concept s ≠ Except.ok () →
        validate_concept s = Except.error "Invalid concept format") := by
  refine ⟨fun s => validate_concept_ok_iff, ?_⟩
  intro s h
  unfold validate_concept at h ⊢
  by_cases hc : (lookaheadOk s && mainMatch isPyWs s) = true
  · rw [if_pos hc] at h
    exact absurd rfl h
  · rw [if_neg hc]

theorem concept_validation_amended_witness :
    validate_concept "payment for rent".data = Except.ok () :=
  (concept_validation_amended.1 "payment for rent".data).mpr (by decide)

/-- C8 counterexample.  `01/01/2060` passes the regex, parses as a real
calendar date and is not in the past, so its only defect is the year
window, yet `validate_transfer_date` reports the same reason string
`Invalid date format` that a structurally invalid string such as
`not a date!` receives: the out-of-range-year sub-reason is not distinct
from the bad-format sub-reason. -/
theorem date_subreason_counterexample :
    dateRegexOk "01/01/2060".data = true
    ∧ dateParseOk "01/01/2060".data = true
    ∧ dateBefore ⟨dateYear "01/01/2060".data, dateMonth "01/01/2060".data,
        dateDay "01/01/2060".data⟩ ⟨2025, 10, 12⟩ = false
    ∧ ¬(2025 ≤ dateYear "01/01/2060".data ∧ dateYear "01/01/2060".data ≤ 2050)
    ∧ validate_transfer_date ⟨2025, 10, 12⟩ "01/01/2060".data
        = Except.error "Invalid date format"
    ∧ validate_transfer_date ⟨2025, 10, 12⟩ "not a date!".data
        = Except.error "Invalid date format" := by
  refine ⟨by decide, by decide, by decide, by decide, by decide, by decide⟩

/-- C8 amended.  A transfer date string is accepted exactly when it
matches the `dd/mm/yyyy` regex (day 00-31, month 00-12), parses as a real
calendar date, is on or after the current UTC date, and has year in
`[2025, 2050]`.  A past date fails with its own reason string, while a
bad format and an out-of-range year share the reason string
`Invalid date format`; no other outcome exists. -/
theorem date_validation_amended :
    (∀ (today : PyDate) (s : List Char),
        validate_transfer_date today s = Except.ok s ↔
          (dateRegexOk s = true ∧ dateParseOk s = true ∧
           dateBefore ⟨dateYear s, dateMonth s, dateDay s⟩ today = false ∧
           2025 ≤ dateYear s ∧ dateYear s ≤ 2050))
    ∧ (∀ (today : PyDate) (s : List Char),
        dateRegexOk s = true → dateParseOk s = true →
        dateBefore ⟨dateYear s, dateMonth s, dateDay s⟩ today = true →
        validate_transfer_date today s = Except.error "Transfer date must be today or later.")
    ∧ (∀ (today : PyDate) (s : List Char),
        validate_transfer_date today s ≠ Except.ok s →
        (validate_transfer_date today s = Except.error "Invalid date format" ∨
         validate_transfer_date today s = Except.error "Transfer date must be today or later.")) := by
  refine ⟨?_, ?_, ?_⟩
  · intro today s
    unfold validate_transfer_date
    split_ifs with h1 h2 h3 h4
    · simp_all
    · simp_all
    · simp_all
    · constructor
      · intro h; exact absurd h (by simp)
      · rintro ⟨-, -, -, hy1, hy2⟩; omega
    · constructor
      · intro _
        refine ⟨by simpa using h1, by simpa using h2, by simpa using h3, ?_, ?_⟩ <;> omega
      · intro _
        rfl
  · intro today s hr hp hb
    unfold validate_transfer_date
    rw [if_neg (by simp [hr]), if_neg (by simp [hp]), if_pos hb]
  · intro today s h
    unfold validate_transfer_date at h ⊢
    split_ifs at h ⊢ with h1 h2 h3 h4
    · exact Or.inl rfl
    · exact Or.inl rfl
    · exact Or.inr rfl
    · exact Or.inl rfl
    · exact absurd rfl h

theorem date_validation_amended_witness :
    validate_transfer_date ⟨2025, 10, 12⟩ "11/10/2025".data
      = Except.error "Transfer date must be today or later." :=
  date_validation_amended.2.1 ⟨2025, 10, 12⟩ "11/10/2025".data (by decide) (by decide) (by decide)

theorem validate_transfer_date_error_msgs {today : PyDate} {s : List Char} {e : String}
    (h : validate_transfer_date today s = Except.error e) :
    e = "Invalid date format" ∨ e = "Transfer date must be today or later." := by
  unfold validate_transfer_date at h
  split_ifs at h <;> simp_all

theorem loadOrEmpty_error_msg {α : Type} {f : StoreFile α} {e : String}
    (h : loadOrEmpty f = Except.error e) :
    e = "JSON Decode Error - Wrong JSON Format" := by
  cases f <;> simp_all [loadOrEmpty]

theorem transfer_request_valid_eq (today : PyDate) (store : StoreFile TransferRecord)
    (f t c ty d : List Char) (a : ℚ)
    (hf : validate_iban f = Except.ok f) (ht : validate_iban t = Except.ok t)
    (hc : validate_concept c = Except.ok ())
    (hty : transferTypeOk ty = true)
    (hd : validate_transfer_date today d = Except.ok d)
    (hfr : fracDigitsLE2 a = true)
    (h10 : 10 ≤ a) (h10k : a ≤ 10000) :
    transfer_request today store f t c ty d a =
      (match loadOrEmpty store with
       | Except.error e => (store, Except.error e)
       | Except.ok t_l =>
         if t_l.any (fun r => matchesRequest r (mkRequest f t c ty d a)) then
           (store, Except.error "Duplicated transfer in transfer list")
         else (StoreFile.content (t_l ++ [mkRequest f t c ty d a]),
               Except.ok (mkRequest f t c ty d a).transfer_code)) := by
  unfold transfer_request
  rw [hf, ht, hc, hd]
  rw [if_neg (by simp [hty]), if_neg (by simp [hfr]),
      if_neg (by push_neg; exact ⟨h10, h10k⟩)]

/-- C7.  Under a valid source IBAN, destination IBAN and concept, a call
to `transfer_request` fails with the invalid-transfer-type error exactly
when the transfer type is none of the three literal strings `ORDINARY`,
`INMEDIATE` (the source's preserved spelling) and `URGENT`; equivalently,
the accepted transfer-type set is exactly those three strings. -/
theorem transfer_type_exactly_three :
    ∀ (today : PyDate) (store : StoreFile TransferRecord)
      (f t c ty d : List Char) (a : ℚ),
      validate_iban f = Except.ok f → validate_iban t = Except.ok t →
      validate_concept c = Except.ok () →
      ((transfer_request today store f t c ty d a).2 = Except.error "Invalid transfer type" ↔
        ¬(ty = "ORDINARY".data ∨ ty = "INMEDIATE".data ∨ ty = "URGENT".data)) := by
  intro today store f t c ty d a hf ht hc
  unfold transfer_request
  rw [hf, ht, hc]
  by_cases hty : transferTypeOk ty = false
  · rw [if_pos hty]
    simp only [transferTypeOk, Bool.or_eq_true, decide_eq_true_eq, Bool.or_eq_false_iff,
      decide_eq_false_iff_not] at hty
    constructor
    · intro _
      rintro (h | h | h) <;> simp_all
    · intro _
      rfl
  · have htrue : transferTypeOk ty = true := by
      cases hh : transferTypeOk ty
      · exact absurd hh hty
      · rfl
    have hor : ty = "ORDINARY".data ∨ ty = "INMEDIATE".data ∨ ty = "URGENT".data := by
      simpa [transferTypeOk, or_assoc] using htrue
    rw [if_neg hty]
    constructor
    · intro h
      exfalso
      cases hd : validate_transfer_date today d with
      | error e =>
          rw [hd] at h
          simp only at h
          rw [Except.error.injEq] at h
          rcases validate_transfer_date_error_msgs hd with he | he <;> simp_all
      | ok _ =>
          rw [hd] at h
          simp only at h
          by_cases hfr : fracDigitsLE2 a = false
          · rw [if_pos hfr] at h
            simp at h
          · rw [if_neg hfr] at h
            by_cases hr : a < 10 ∨ a > 10000
            · rw [if_pos hr] at h
              simp at h
            · rw [if_neg hr] at h
              cases hl : loadOrEmpty store with
              | error e =>
                  rw [hl] at h
                  simp only at h
                  rw [Except.error.injEq] at h
                  have := loadOrEmpty_error_msg hl
                  simp_all
              | ok t_l =>
                  rw [hl] at h
                  simp only at h
                  by_cases hdup : t_l.any
                      (fun r => matchesRequest r (mkRequest f t c ty d a)) = true
                  · rw [if_pos hdup] at h
                    simp at h
                  · rw [if_neg hdup] at h
                    simp at h
    · intro hno
      exact (hno hor).elim

theorem transfer_type_exactly_three_witness :
    (transfer_request ⟨2025, 10, 12⟩ (StoreFile.content [])
        "ES9121000418450200051332".data "ES9121000418450200051332".data
        "payment for rent".data "IMMEDIATE".data "01/01/2026".data 40).2
      = Except.error "Invalid transfer type" :=
  (transfer_type_exactly_three ⟨2025, 10, 12⟩ (StoreFile.content []) _ _ _ _ _ 40
      (by decide) (by decide) (by decide)).mpr (by decide)

theorem matchesRequest_self (r : TransferRecord) : matchesRequest r r = true := by
  simp [matchesRequest]

/-- C2.  With six valid field values and a transfers store holding no
record whose six business fields match them, the first
`transfer_request` call succeeds and appends exactly one record, the
store then contains exactly one record with those six fields, and a
second byte-identical call fails with the duplicate error while leaving
the store unchanged. -/
theorem duplicate_transfer_detection :
    ∀ (today : PyDate) (t_l : List TransferRecord) (f t c ty d : List Char) (a : ℚ),
      validate_iban f = Except.ok f → validate_iban t = Except.ok t →
      validate_concept c = Except.ok () → transferTypeOk ty = true →
      validate_transfer_date today d = Except.ok d →
      fracDigitsLE2 a = true → 10 ≤ a → a ≤ 10000 →
      t_l.any (fun r => matchesRequest r (mkRequest f t c ty d a)) = false →
      (transfer_request today (StoreFile.content t_l) f t c ty d a
          = (StoreFile.content (t_l ++ [mkRequest f t c ty d a]),
             Except.ok (mkRequest f t c ty d a).transfer_code))
      ∧ ((t_l ++ [mkRequest f t c ty d a]).countP
            (fun r => matchesRequest r (mkRequest f t c ty d a)) = 1)
      ∧ (transfer_request today (StoreFile.content (t_l ++ [mkRequest f t c ty d a]))
            f t c ty d a
          = (StoreFile.content (t_l ++ [mkRequest f t c ty d a]),
             Except.error "Duplicated transfer in transfer list")) := by
  intro today t_l f t c ty d a hf ht hc hty hd hfr h10 h10k hnodup
  refine ⟨?_, ?_, ?_⟩
  · rw [transfer_request_valid_eq today _ f t c ty d a hf ht hc hty hd hfr h10 h10k]
    simp only [loadOrEmpty]
    rw [if_neg (by rw [hnodup]; simp)]
  · rw [List.countP_append]
    have h0 : t_l.countP (fun r => matchesRequest r (mkRequest f t c ty d a)) = 0 := by
      rw [List.countP_eq_zero]
      intro r hr
      have := List.any_eq_false.1 hnodup r hr
      simpa using this
    simp [h0, matchesRequest_self]
  · rw [transfer_request_valid_eq today _ f t c ty d a hf ht hc hty hd hfr h10 h10k]
    simp only [loadOrEmpty]
    rw [if_pos (by simp [List.any_append, matchesRequest_self])]

theorem duplicate_transfer_detection_witness :
    transfer_request ⟨2025, 10, 12⟩
        (StoreFile.content [mkRequest "ES9121000418450200051332".data
          "ES9121000418450200051332".data "payment for rent".data "ORDINARY".data
          "01/01/2026".data 40])
        "ES9121000418450200051332".data "ES9121000418450200051332".data
        "payment for rent".data "ORDINARY".data "01/01/2026".data 40
      = (StoreFile.content [mkRequest "ES9121000418450200051332".data
          "ES9121000418450200051332".data "payment for rent".data "ORDINARY".data
          "01/01/2026".data 40],
         Except.error "Duplicated transfer in transfer list") := by
  have h := (duplicate_transfer_detection ⟨2025, 10, 12⟩ []
      "ES9121000418450200051332".data "ES9121000418450200051332".data
      "payment for rent".data "ORDINARY".data "01/01/2026".data 40
      (by decide) (by decide) (by decide) (by decide) (by decide)
      (by decide) (by norm_num) (by norm_num) (by decide)).2.2
  simpa using h

/-- C5.  With a valid IBAN in the deposit input, the amount string is
accepted exactly when it matches the literal pattern `EUR dddd.dd`
(4 integer digits, 2 fractional digits), failing the
invalid-deposit-amount error otherwise; when the pattern matches but the
value is zero (`EUR 0000.00`) the call fails the zero-deposit error and
writes nothing; with `EUR 0010.50` it succeeds, appends exactly one
record whose numeric deposit amount is `10.50 = 21/2`, and returns its
signature. -/
theorem deposit_amount_validation :
    (∀ (now : ℚ) (ib am : List Char) (d_l : List DepositRecord),
      validate_iban ib = Except.ok ib →
      ((deposit_into_account now (DepositInputFile.obj (some ib) (some am))
          (StoreFile.content d_l)).2
          = Except.error "Error - Invalid deposit amount" ↔ depositAmountRegexOk am = false))
    ∧ (∀ (now : ℚ) (ib : List Char) (d_l : List DepositRecord),
        validate_iban ib = Except.ok ib →
        deposit_into_account now (DepositInputFile.obj (some ib) (some "EUR 0000.00".data))
            (StoreFile.content d_l)
          = (StoreFile.content d_l, Except.error "Error - Deposit must be greater than 0"))
    ∧ (∀ (now : ℚ) (ib : List Char) (d_l : List DepositRecord),
        validate_iban ib = Except.ok ib →
        deposit_into_account now (DepositInputFile.obj (some ib) (some "EUR 0010.50".data))
            (StoreFile.content d_l)
          = (StoreFile.content (d_l ++ [⟨ib, depositValue "EUR 0010.50".data,
              depositSignature ib (depositValue "EUR 0010.50".data), now⟩]),
             Except.ok (depositSignature ib (depositValue "EUR 0010.50".data))))
    ∧ depositValue "EUR 0010.50".data = 21 / 2 := by
  refine ⟨?_, ?_, ?_, ?_⟩
  · intro now ib am d_l hib
    unfold deposit_into_account
    simp only [hib]
    by_cases hre : depositAmountRegexOk am = false
    · rw [if_pos hre]
      simp [hre]
    · rw [if_neg hre]
      have : ¬(depositAmountRegexOk am = false) := hre
      by_cases hz : depositValue am = 0
      · rw [if_pos hz]
        constructor
        · intro h
          simp at h
        · intro h
          exact absurd h hre
      · rw [if_neg hz]
        simp only [loadOrEmpty]
        constructor
        · intro h
          exact absurd h (by simp)
        · intro h
          exact absurd h hre
  · intro now ib d_l hib
    unfold deposit_into_account
    simp only [hib]
    rw [if_neg (by decide), if_pos (by decide)]
  · intro now ib d_l hib
    unfold deposit_into_account
    simp only [hib]
    rw [if_neg (by decide), if_neg (by decide)]
    simp only [loadOrEmpty]
  · have h : depositValue "EUR 0010.50".data = mkRat 1050 100 := by decide
    rw [h]
    norm_num [mkRat, Rat.normalize]

theorem deposit_amount_validation_witness :
    (deposit_into_account 0 (DepositInputFile.obj
        (some "ES9121000418450200051332".data) (some "EUR 10.50".data))
        (StoreFile.content [])).2
      = Except.error "Error - Invalid deposit amount" :=
  (deposit_amount_validation.1 0 "ES9121000418450200051332".data "EUR 10.50".data []
      (by decide)).mpr (by decide)

theorem balStep_foldl (ib : List Char) :
    ∀ (l : List TransactionRecord) (b : Bool) (acc : ℚ),
      l.foldl (balStep ib) (b, acc)
        = (b || l.any (fun t => decide (t.IBAN = ib)), acc + balanceSum ib l) := by
  intro l
  induction l with
  | nil =>
      intro b acc
      simp [balanceSum]
  | cons t ts ih =>
      intro b acc
      simp only [List.foldl_cons, balStep]
      by_cases hm : t.IBAN = ib
      · rw [if_pos hm, ih]
        simp [balanceSum, List.filter_cons, hm, ratAdd_eq_add, add_assoc]
      · rw [if_neg hm, ih]
        simp [balanceSum, List.filter_cons, hm]

/-- C4 counterexample.  On the transactions collection of the spec's own
example (`IBAN "X"` with amounts `100` and `-30`), `calculate_balance`
called for `"X"` does not append a `BALANCE 70` snapshot: the IBAN is
validated first and `"X"` fails the structural IBAN check, so the call
fails with the invalid-format error and writes nothing. -/
theorem balance_example_counterexample :
    calculate_balance 0 (StoreFile.content [⟨"X".data, 100⟩, ⟨"X".data, -30⟩])
        (StoreFile.content []) "X".data
      = (StoreFile.content [], Except.error "Invalid IBAN format") := by decide

/-- C4 amended.  For every IBAN string that passes IBAN validation:
when no transaction's IBAN equals it, `calculate_balance` fails the
IBAN-not-found error and appends nothing; when some transaction matches,
it appends exactly one snapshot carrying the queried IBAN, the current
timestamp and the accumulated balance, and returns `true`.  The
snapshot's `BALANCE` equals the exact sum of the matching amounts on the
domain where the source's binary64 accumulation is provably exact
(integer amounts whose absolute values sum below `2^53`, see `balStep`);
on the spec's example amounts `100` and `-30` — inside that domain — the
appended balance is `70`.  For amounts outside that domain the source
accumulates with per-addition binary64 rounding (`0.1 + 0.2` yields
`0.30000000000000004`), so no exact-sum equality is asserted there.
(An IBAN failing validation — such as the spec's literal `"X"` — is
rejected before the transactions are read, see the counterexample.) -/
theorem calculate_balance_amended :
    (∀ (now : ℚ) (t_l : List TransactionRecord) (b_l : List BalanceRecord) (ib : List Char),
      validate_iban ib = Except.ok ib →
      t_l.any (fun t => decide (t.IBAN = ib)) = false →
      calculate_balance now (StoreFile.content t_l) (StoreFile.content b_l) ib
        = (StoreFile.content b_l, Except.error "IBAN not found"))
    ∧ (∀ (now : ℚ) (t_l : List TransactionRecord) (b_l : List BalanceRecord) (ib : List Char),
      validate_iban ib = Except.ok ib →
      t_l.any (fun t => decide (t.IBAN = ib)) = true →
      ∃ v : ℚ, calculate_balance now (StoreFile.content t_l) (StoreFile.content b_l) ib
        = (StoreFile.content (b_l ++ [⟨ib, now, v⟩]), Except.ok true))
    ∧ (∀ (now : ℚ) (t_l : List TransactionRecord) (b_l : List BalanceRecord) (ib : List Char),
      validate_iban ib = Except.ok ib →
      t_l.any (fun t => decide (t.IBAN = ib)) = true →
      exactBalanceDomain ib t_l →
      calculate_balance now (StoreFile.content t_l) (StoreFile.content b_l) ib
        = (StoreFile.content (b_l ++ [⟨ib, now, balanceSum ib t_l⟩]), Except.ok true))
    ∧ calculate_balance 7
        (StoreFile.content [⟨"ES9121000418450200051332".data, 100⟩,
          ⟨"ES9121000418450200051332".data, -30⟩])
        (StoreFile.content []) "ES9121000418450200051332".data
      = (StoreFile.content [⟨"ES9121000418450200051332".data, 7, 70⟩], Except.ok true) := by
  have hval : ∀ (now : ℚ) (t_l : List TransactionRecord) (b_l : List BalanceRecord)
      (ib : List Char),
      validate_iban ib = Except.ok ib →
      t_l.any (fun t => decide (t.IBAN = ib)) = true →
      calculate_balance now (StoreFile.content t_l) (StoreFile.content b_l) ib
        = (StoreFile.content (b_l ++ [⟨ib, now, balanceSum ib t_l⟩]), Except.ok true) := by
    intro now t_l b_l ib hib hany
    unfold calculate_balance
    rw [hib]
    simp only [read_transactions_file]
    rw [balStep_foldl ib t_l false 0]
    simp only [Bool.false_or, zero_add, hany]
    rw [if_neg (by simp)]
    simp only [loadOrEmpty]
  refine ⟨?_, ?_, ?_, ?_⟩
  · intro now t_l b_l ib hib hany
    unfold calculate_balance
    rw [hib]
    simp only [read_transactions_file]
    rw [balStep_foldl ib t_l false 0]
    simp only [Bool.false_or, zero_add, hany]
    simp
  · intro now t_l b_l ib hib hany
    exact ⟨balanceSum ib t_l, hval now t_l b_l ib hib hany⟩
  · intro now t_l b_l ib hib hany _hdom
    exact hval now t_l b_l ib hib hany
  · have h := hval 7 [⟨"ES9121000418450200051332".data, 100⟩,
        ⟨"ES9121000418450200051332".data, -30⟩] [] "ES9121000418450200051332".data
        (by decide) (by decide)
    rw [h]
    have hsum : balanceSum "ES9121000418450200051332".data
        [⟨"ES9121000418450200051332".data, 100⟩, ⟨"ES9121000418450200051332".data, -30⟩]
        = 70 := by
      simp only [balanceSum, List.filter_cons, List.filter_nil]
      norm_num
    rw [hsum]
    simp

theorem calculate_balance_amended_witness :
    exactBalanceDomain "ES9121000418450200051332".data
        [⟨"ES9121000418450200051332".data, 55⟩]
    ∧ calculate_balance 3
        (StoreFile.content [⟨"ES9121000418450200051332".data, 55⟩])
        (StoreFile.content []) "ES9121000418450200051332".data
      = (StoreFile.content [⟨"ES9121000418450200051332".data, 3,
          balanceSum "ES9121000418450200051332".data
            [⟨"ES9121000418450200051332".data, 55⟩]⟩], Except.ok true) := by
  refine ⟨by decide, ?_⟩
  have h := calculate_balance_amended.2.2.1 3 [⟨"ES9121000418450200051332".data, 55⟩]
      [] "ES9121000418450200051332".data (by decide) (by decide) (by decide)
  simpa using h

/-- C9.  Store-file policy: for the transfers, deposits and balances
collections a missing file is treated as an empty sequence and the
operation proceeds (for a missing balances file, exactly one snapshot is
appended to the fresh empty list; the accumulated balance value itself is
not asserted here, see `balStep`), while for the transactions collection
a missing file is fatal — `calculate_balance` on a valid IBAN fails the
file error and appends nothing; a malformed (undecodable) file fails the
JSON-decode error for every one of the four collections. -/
theorem store_file_policy :
    (∀ (today : PyDate) (f t c ty d : List Char) (a : ℚ),
      validate_iban f = Except.ok f → validate_iban t = Except.ok t →
      validate_concept c = Except.ok () → transferTypeOk ty = true →
      validate_transfer_date today d = Except.ok d →
      fracDigitsLE2 a = true → 10 ≤ a → a ≤ 10000 →
      transfer_request today StoreFile.missing f t c ty d a
        = (StoreFile.content [mkRequest f t c ty d a],
           Except.ok (mkRequest f t c ty d a).transfer_code))
    ∧ (∀ (today : PyDate) (f t c ty d : List Char) (a : ℚ),
        validate_iban f = Except.ok f → validate_iban t = Except.ok t →
        validate_concept c = Except.ok () → transferTypeOk ty = true →
        validate_transfer_date today d = Except.ok d →
        fracDigitsLE2 a = true → 10 ≤ a → a ≤ 10000 →
        transfer_request today StoreFile.malformed f t c ty d a
          = (StoreFile.malformed, Except.error "JSON Decode Error - Wrong JSON Format"))
    ∧ (∀ (now : ℚ) (ib : List Char), validate_iban ib = Except.ok ib →
        deposit_into_account now (DepositInputFile.obj (some ib) (some "EUR 0010.50".data))
            StoreFile.missing
          = (StoreFile.content [⟨ib, depositValue "EUR 0010.50".data,
              depositSignature ib (depositValue "EUR 0010.50".data), now⟩],
             Except.ok (depositSignature ib (depositValue "EUR 0010.50".data))))
    ∧ (∀ (now : ℚ) (ib : List Char), validate_iban ib = Except.ok ib →
        deposit_into_account now (DepositInputFile.obj (some ib) (some "EUR 0010.50".data))
            StoreFile.malformed
          = (StoreFile.malformed, Except.error "JSON Decode Error - Wrong JSON Format"))
    ∧ (∀ (now : ℚ) (t_l : List TransactionRecord) (ib : List Char),
        validate_iban ib = Except.ok ib →
        t_l.any (fun t => decide (t.IBAN = ib)) = true →
        ∃ v : ℚ, calculate_balance now (StoreFile.content t_l) StoreFile.missing ib
          = (StoreFile.content [⟨ib, now, v⟩], Except.ok true))
    ∧ (∀ (now : ℚ) (t_l : List TransactionRecord) (ib : List Char),
        validate_iban ib = Except.ok ib →
        t_l.any (fun t => decide (t.IBAN = ib)) = true →
        calculate_balance now (StoreFile.content t_l) StoreFile.malformed ib
          = (StoreFile.malformed, Except.error "JSON Decode Error - Wrong JSON Format"))
    ∧ (∀ (now : ℚ) (b : StoreFile BalanceRecord) (ib : List Char),
        validate_iban ib = Except.ok ib →
        calculate_balance now StoreFile.missing b ib
          = (b, Except.error "Wrong file  or file path"))
    ∧ (∀ (now : ℚ) (b : StoreFile BalanceRecord) (ib : List Char),
        validate_iban ib = Except.ok ib →
        calculate_balance now StoreFile.malformed b ib
          = (b, Except.error "JSON Decode Error - Wrong JSON Format")) := by
  refine ⟨?_, ?_, ?_, ?_, ?_, ?_, ?_, ?_⟩
  · intro today f t c ty d a hf ht hc hty hd hfr h10 h10k
    rw [transfer_request_valid_eq today _ f t c ty d a hf ht hc hty hd hfr h10 h10k]
    simp only [loadOrEmpty]
    rw [if_neg (by simp)]
    simp
  · intro today f t c ty d a hf ht hc hty hd hfr h10 h10k
    rw [transfer_request_valid_eq today _ f t c ty d a hf ht hc hty hd hfr h10 h10k]
    simp only [loadOrEmpty]
  · intro now ib hib
    unfold deposit_into_account
    simp only [hib]
    rw [if_neg (by decide), if_neg (by decide)]
    simp only [loadOrEmpty]
    simp
  · intro now ib hib
    unfold deposit_into_account
    simp only [hib]
    rw [if_neg (by decide), if_neg (by decide)]
    simp only [loadOrEmpty]
  · intro now t_l ib hib hany
    refine ⟨balanceSum ib t_l, ?_⟩
    unfold calculate_balance
    rw [hib]
    simp only [read_transactions_file]
    rw [balStep_foldl ib t_l false 0]
    simp only [Bool.false_or, zero_add, hany]
    rw [if_neg (by simp)]
    simp only [loadOrEmpty]
    simp
  · intro now t_l ib hib hany
    unfold calculate_balance
    rw [hib]
    simp only [read_transactions_file]
    rw [balStep_foldl ib t_l false 0]
    simp only [Bool.false_or, zero_add, hany]
    rw [if_neg (by simp)]
    simp only [loadOrEmpty]
  · intro now b ib hib
    unfold calculate_balance
    rw [hib]
    simp only [read_transactions_file]
  · intro now b ib hib
    unfold calculate_balance
    rw [hib]
    simp only [read_transactions_file]

theorem store_file_policy_witness :
    calculate_balance 0 StoreFile.missing (StoreFile.content [])
        "ES9121000418450200051332".data
      = (StoreFile.content [], Except.error "Wrong file  or file path")
    ∧ deposit_into_account 1 (DepositInputFile.obj
        (some "ES9121000418450200051332".data) (some "EUR 0010.50".data))
        StoreFile.missing
      = (StoreFile.content [⟨"ES9121000418450200051332".data,
          depositValue "EUR 0010.50".data,
          depositSignature "ES9121000418450200051332".data
            (depositValue "EUR 0010.50".data), 1⟩],
         Except.ok (depositSignature "ES9121000418450200051332".data
            (depositValue "EUR 0010.50".data))) :=
  ⟨store_file_policy.2.2.2.2.2.2.1 0 (StoreFile.content [])
      "ES9121000418450200051332".data (by decide),
   store_file_policy.2.2.1 1 "ES9121000418450200051332".data (by decide)⟩
